import Mathlib

/-!
Shallow embedding of the Reward-service decision pipeline and cache layer.

Python sources embedded here:
  * `app/services/reward_engine.py` — the decision pipeline (`calculate_reward`
    and its helpers `_get_valid_persona`, `_get_cached_response`,
    `_validate_config_cached`).
  * `app/routers/reward_router.py` — the exception-to-HTTP-status mapping.
  * `app/cache/memory_cache.py` — the in-process fallback cache.
  * `app/cache/redis_cache.py` — the serialization layer of the networked cache client
    layer (`_serialize_value`, `set`, `get` on the fault-free path).

Modelling conventions:
  * Python floats are modelled as rationals (`ℚ`); Python `int(x)` (truncation
    toward zero) is `pyInt`.
  * A cache read that may fail (`asyncio.gather(..., return_exceptions=True)`)
    is `Except Unit (Option CacheValue)`: `.error ()` is an exception result,
    `.ok none` is an absent key, `.ok (some v)` is a hit.
  * The decision identifier (`uuid.uuid4()`) and the date string for today are
    inputs to the embedded function.
  * Deferred cache writes are returned as an explicit list; a sequential
    (non-interleaved) pair of calls is modelled by applying the writes of the first call to the store before the second call reads.
-/

set_option autoImplicit false

namespace RewardService

/-- From `app/models/enum.py` — `Persona`. -/
inductive Persona where
  | NEW
  | RETURNING
  | POWER
deriving DecidableEq, Repr

/-- The string value of a persona (`Persona.X.value` in the source). -/
def Persona.str : Persona → String
  | .NEW => "NEW"
  | .RETURNING => "RETURNING"
  | .POWER => "POWER"

/-- From `app/models/enum.py` — `RewardType`. -/
inductive RewardType where
  | XP
  | CHECKOUT
  | GOLD
deriving DecidableEq, Repr

/-- From `app/models/enum.py` — `ReasonCode`. -/
inductive ReasonCode where
  | XP_APPLIED
  | CASHBACK_GRANTED
  | GOLD_GRANTED
  | DAILY_CAC_EXCEEDED
  | CONFIG_BASED_DECISION
deriving DecidableEq, Repr

/-- From `app/models/response.py` — `RewardResponse`.  The `meta` dict always holds
exactly the three keys written at `reward_engine.py:216-220`, embedded here as
three fields. -/
structure RewardResponse where
  decision_id : String
  policy_version : String
  reward_type : RewardType
  reward_value : Int
  xp : Int
  reason_codes : List ReasonCode
  meta_persona : Persona
  meta_daily_cac_used : Int
  meta_daily_cac_limit : Int
deriving DecidableEq, Repr

/-- From `app/models/request.py` — `RewardRequest` (the fields the engine reads;
`txn_type` and `ts` are never consulted by `calculate_reward`). -/
structure RewardRequest where
  txn_id : String
  user_id : String
  merchant_id : String
  amount : ℚ
deriving DecidableEq, Repr

/-- A value held in the cache, as seen by the decision pipeline: a Python
int, float, string, or a Decision-Record mapping.  A stored
`response.model_dump()` dict and a `RewardResponse` instance carry the same
fields, so both decode shapes accepted by `_get_cached_response` are the
single constructor `vResp`. -/
inductive CacheValue where
  | vInt (n : Int)
  | vFloat (q : ℚ)
  | vStr (s : String)
  | vResp (r : RewardResponse)
deriving DecidableEq, Repr

/-- Python truthiness of a cache value (used by `if cached_response:` and
`if persona_raw`).  A Decision-Record dict has seven keys, hence truthy. -/
def CacheValue.truthy : CacheValue → Bool
  | .vInt n => n ≠ 0
  | .vFloat q => q ≠ 0
  | .vStr s => s ≠ ""
  | .vResp _ => true

/-- Python `int()` on a rational: truncation toward zero. -/
def pyInt (q : ℚ) : Int := if 0 ≤ q then ⌊q⌋ else ⌈q⌉

/-- All-digit parse of a character list (helper for `pyFloat`). -/
def digitsVal : List Char → Option Nat
  | [] => none
  | [c] => if c.isDigit then some (c.toNat - '0'.toNat) else none
  | c :: rest =>
    match digitsVal rest with
    | some r => if c.isDigit then some ((c.toNat - '0'.toNat) * 10 ^ rest.length + r) else none
    | none => none

/-- Split a character list at the first dot. -/
def splitDot : List Char → List Char × Option (List Char)
  | [] => ([], none)
  | c :: rest =>
    if c = '.' then ([], some rest)
    else
      let (pre, post) := splitDot rest
      (c :: pre, post)

/-- Model of Python `float(s)` on the decimal literals that numeric cache
values take (optional sign, integer digits, optional fractional digits —
e.g. "5", "5.0", "-3.25", ".5", "5.").  Other inputs are parse failures,
which the engine maps to 0 exactly as it maps these. -/
def pyFloat (s : String) : Option ℚ :=
  let chars := s.data
  let (neg, body) :=
    match chars with
    | '-' :: rest => (true, rest)
    | _ => (false, chars)
  let (ipart, fpart) := splitDot body
  let q : Option ℚ :=
    match ipart, fpart with
    | [], none => none
    | [], some [] => none
    | is, none =>
      match digitsVal is with
      | some n => some (n : ℚ)
      | none => none
    | [], some fs =>
      match digitsVal fs with
      | some f => some ((f : ℚ) / (10 : ℚ) ^ fs.length)
      | none => none
    | is, some [] =>
      match digitsVal is with
      | some n => some (n : ℚ)
      | none => none
    | is, some fs =>
      match digitsVal is, digitsVal fs with
      | some n, some f => some ((n : ℚ) + (f : ℚ) / (10 : ℚ) ^ fs.length)
      | _, _ => none
  match q with
  | some v => some (if neg then -v else v)
  | none => none

/-- Feature flags (`feature_flags` mapping); `feature_flags.get("prefer_gold")`
on an absent key is falsy, so an absent flag is `false`. -/
structure FeatureFlags where
  prefer_gold : Bool
  prefer_xp : Bool
deriving DecidableEq, Repr

/-- The Policy Configuration mapping (`CONFIG`).  `none` in an `Option` field
means the corresponding key is absent from the dict; the two per-persona maps
may each lack entries for some personas. -/
structure Config where
  xp_per_rupee : Option ℚ
  max_xp_per_txn : Option ℚ
  persona_multipliers : Option (Persona → Option ℚ)
  daily_cac_limit : Option (Persona → Option ℚ)
  feature_flags : Option FeatureFlags
  policy_version : Option String
  gold_reward_value : Option ℚ
  cache_persona_ttl : Option Int
  cache_cac_ttl : Option Int
  cache_idempotency_ttl : Option Int

/-- Errors raised by the engine: `ValueError` and `RuntimeError`
(`reward_engine.py:247-252`). -/
inductive EngineError where
  | valueError (msg : String)
  | runtimeError (msg : String)
deriving DecidableEq, Repr

/-- From `app/routers/reward_router.py:25-41` — the HTTP status each engine
exception is mapped to: `ValueError → 400`, `RuntimeError → 500`. -/
def routerStatus : EngineError → Nat
  | .valueError _ => 400
  | .runtimeError _ => 500

/-- From `reward_engine.py:67-73` — `_get_valid_persona`: a string matching a
persona value passes through, everything else is `NEW`. -/
def _get_valid_persona : CacheValue → Persona
  | .vStr s =>
    if s = "NEW" then .NEW
    else if s = "RETURNING" then .RETURNING
    else if s = "POWER" then .POWER
    else .NEW
  | _ => .NEW

/-- From `reward_engine.py:76-83` — `_get_cached_response`: a Decision-Record
mapping (or instance) decodes to itself, anything else raises `ValueError`. -/
def _get_cached_response : CacheValue → Except EngineError RewardResponse
  | .vResp r => .ok r
  | _ => .error (.valueError "Unexpected cached data type")

/-- One result of the four gathered cache reads
(`asyncio.gather(..., return_exceptions=True)`). -/
abbrev ReadRes : Type := Except Unit (Option CacheValue)

/-- The four read results, in gather order. -/
structure ReadResults where
  idem : ReadRes
  persona : ReadRes
  txnCount : ReadRes
  cac : ReadRes

/-- From `reward_engine.py:122-123` — an exception from the idempotency read is
replaced by `None`. -/
def readIdem : ReadRes → Option CacheValue
  | .error _ => none
  | .ok v => v

/-- From `reward_engine.py:127-129` — exception → `None`; a falsy value skips
`_get_valid_persona` and yields `NEW` directly (`if persona_raw else NEW`). -/
def readPersona : ReadRes → Persona
  | .error _ => .NEW
  | .ok none => .NEW
  | .ok (some v) => if v.truthy then _get_valid_persona v else .NEW

/-- From `reward_engine.py:131-142` — transaction-count decoding: exception → 0
(then `int(0)`), int/float → `int(raw)`, numeric string → `int(float(raw))`,
anything else → 0. -/
def readTxnCount : ReadRes → Int
  | .error _ => 0
  | .ok none => 0
  | .ok (some (.vInt n)) => n
  | .ok (some (.vFloat q)) => pyInt q
  | .ok (some (.vStr s)) =>
    match pyFloat s with
    | some q => pyInt q
    | none => 0
  | .ok (some (.vResp _)) => 0

/-- From `reward_engine.py:150-161` — CAC decoding: like the transaction count but
clamped to `≥ 0` on the numeric branches; exception → `None` → 0. -/
def readCac : ReadRes → Int
  | .error _ => 0
  | .ok none => 0
  | .ok (some (.vInt n)) => max 0 n
  | .ok (some (.vFloat q)) => max 0 (pyInt q)
  | .ok (some (.vStr s)) =>
    match pyFloat s with
    | some q => max 0 (pyInt q)
    | none => 0
  | .ok (some (.vResp _)) => 0

/-- From `reward_engine.py:145-148` — persona promotion on the post-increment
transaction count. -/
def promote (p : Persona) (txnCount : Int) : Persona :=
  if p = .NEW ∧ txnCount ≥ 3 then .RETURNING
  else if p = .RETURNING ∧ txnCount ≥ 10 then .POWER
  else p

/-- The configuration values `calculate_reward` extracts once
`_validate_config_cached` has passed. -/
structure CfgVals where
  xp_per_rupee : ℚ
  max_xp : ℚ
  multiplier : ℚ
  daily_limit : Int
  prefer_gold : Bool
  prefer_xp : Bool
  policy_version : String
  gold_reward_value : ℚ
  persona_ttl : Int
  cac_ttl : Int
  idempotency_ttl : Int
deriving DecidableEq, Repr

/-- From `reward_engine.py:40-64` — `_validate_config_cached` on a cold validation
cache, fused with the extraction and numeric checks of lines 163-184: the
six required keys in source order, the presence of the persona in both maps, TTL
defaults, then the non-negativity checks in source order.  Every raise is a
`ValueError`. -/
def getCfgVals (cfg : Config) (persona : Persona) : Except EngineError CfgVals :=
  match cfg.xp_per_rupee with
  | none => .error (.valueError "Missing required config key: xp_per_rupee")
  | some ppu =>
  match cfg.max_xp_per_txn with
  | none => .error (.valueError "Missing required config key: max_xp_per_txn")
  | some mx =>
  match cfg.persona_multipliers with
  | none => .error (.valueError "Missing required config key: persona_multipliers")
  | some pm =>
  match cfg.daily_cac_limit with
  | none => .error (.valueError "Missing required config key: daily_cac_limit")
  | some dcl =>
  match cfg.feature_flags with
  | none => .error (.valueError "Missing required config key: feature_flags")
  | some ff =>
  match cfg.policy_version with
  | none => .error (.valueError "Missing required config key: policy_version")
  | some pv =>
  match pm persona with
  | none => .error (.valueError "Persona not found in persona_multipliers config")
  | some mult =>
  match dcl persona with
  | none => .error (.valueError "Persona not found in daily_cac_limit config")
  | some dl =>
  if ppu < 0 then
    .error (.valueError "xp_per_rupee must be a non-negative number")
  else if mult < 0 then
    .error (.valueError "persona_multipliers value must be a non-negative number")
  else if mx < 0 then
    .error (.valueError "max_xp_per_txn must be a non-negative number")
  else if pyInt dl < 0 then
    .error (.valueError "daily_cac_limit value must be a non-negative number")
  else
    .ok {
      xp_per_rupee := ppu
      max_xp := mx
      multiplier := mult
      daily_limit := pyInt dl
      prefer_gold := ff.prefer_gold
      prefer_xp := ff.prefer_xp
      policy_version := pv
      gold_reward_value := cfg.gold_reward_value.getD 50
      persona_ttl := cfg.cache_persona_ttl.getD 2592000
      cac_ttl := cfg.cache_cac_ttl.getD 86400
      idempotency_ttl := cfg.cache_idempotency_ttl.getD 86400 }

/-- From `reward_engine.py:186-188` — the experience-points value: `int` of the
product, then `min` with `int(max_xp)`, then `max` with 0, in source order. -/
def computeXp (amount xp_per_rupee multiplier max_xp : ℚ) : Int :=
  max 0 (min (pyInt (amount * xp_per_rupee * multiplier)) (pyInt max_xp))

/-- From `reward_engine.py:189-207` — the reward-selection branch; the
`gold_reward_value` non-negativity check happens only inside branch (b). -/
def rewardBranch (vals : CfgVals) (current_cac : Int) (persona : Persona)
    (xp : Int) : Except EngineError (RewardType × Int × ReasonCode) :=
  if current_cac ≥ vals.daily_limit then
    .ok (.XP, xp, .DAILY_CAC_EXCEEDED)
  else if vals.prefer_gold ∧ persona = .POWER then
    if vals.gold_reward_value < 0 then
      .error (.valueError "gold_reward_value must be a non-negative number")
    else
      .ok (.GOLD, pyInt vals.gold_reward_value, .GOLD_GRANTED)
  else if vals.prefer_xp then
    .ok (.XP, xp, .XP_APPLIED)
  else
    .ok (.CHECKOUT, min (max 0 (vals.daily_limit - current_cac)) xp, .CASHBACK_GRANTED)

/-- The cache keys built at `reward_engine.py:104-107`. -/
def idemKey (req : RewardRequest) : String :=
  "idem:" ++ req.txn_id ++ ":" ++ req.user_id ++ ":" ++ req.merchant_id

/-- Per-user persona key. -/
def personaKey (req : RewardRequest) : String := "persona:" ++ req.user_id

/-- Per-user transaction-count key. -/
def txnCountKey (req : RewardRequest) : String := "txn_count:" ++ req.user_id

/-- Per-user per-day CAC key. -/
def cacKey (req : RewardRequest) (today : String) : String :=
  "cac:" ++ req.user_id ++ ":" ++ today

/-- One scheduled cache write (`cache.set(key, value, ttl)`). -/
structure CacheWrite where
  key : String
  value : CacheValue
  ttl : Int
deriving DecidableEq, Repr

/-- From `reward_engine.py:127-245` — the main computation after the idempotency
short-circuit: read normalization, increment, promotion, configuration
validation/extraction, XP computation, reward selection, response assembly
and the four deferred writes (persona, txn count, new CAC, idempotency
record, in source order). -/
def decideMain (reads : ReadResults) (cfg : Config) (req : RewardRequest)
    (decisionId today : String) :
    Except EngineError (RewardResponse × List CacheWrite) :=
  let persona0 := readPersona reads.persona
  let txn_count := readTxnCount reads.txnCount + 1
  let persona := promote persona0 txn_count
  let current_cac := readCac reads.cac
  match getCfgVals cfg persona with
  | .error e => .error e
  | .ok vals =>
    let xp := computeXp req.amount vals.xp_per_rupee vals.multiplier vals.max_xp
    match rewardBranch vals current_cac persona xp with
    | .error e => .error e
    | .ok (reward_type, reward_value, reason) =>
      let response : RewardResponse := {
        decision_id := decisionId
        policy_version := vals.policy_version
        reward_type := reward_type
        reward_value := reward_value
        xp := xp
        reason_codes := [reason]
        meta_persona := persona
        meta_daily_cac_used := current_cac
        meta_daily_cac_limit := vals.daily_limit }
      let new_cac := current_cac + reward_value
      .ok (response, [
        ⟨personaKey req, .vStr persona.str, vals.persona_ttl⟩,
        ⟨txnCountKey req, .vInt txn_count, vals.persona_ttl⟩,
        ⟨cacKey req today, .vInt new_cac, vals.cac_ttl⟩,
        ⟨idemKey req, .vResp response, vals.idempotency_ttl⟩])

/-- The `except` clauses at `reward_engine.py:247-252`: a `ValueError` is
re-raised with an "Invalid input or configuration" prefix; any other
exception becomes a `RuntimeError` ("Reward decision failed"). -/
def wrapError : EngineError → EngineError
  | .valueError m => .valueError ("Invalid input or configuration: " ++ m)
  | .runtimeError m => .runtimeError ("Reward decision failed: " ++ m)

/-- From `reward_engine.py:86-252` — `calculate_reward`: the idempotency
short-circuit (`if cached_response: return _get_cached_response(...)` — an
early return schedules no cache writes), else the main computation; every
raised error passes through the `except` wrapping. -/
def calculate_reward (reads : ReadResults) (cfg : Config) (req : RewardRequest)
    (decisionId today : String) :
    Except EngineError (RewardResponse × List CacheWrite) :=
  let raw : Except EngineError (RewardResponse × List CacheWrite) :=
    match readIdem reads.idem with
    | some cv =>
      if cv.truthy then
        match _get_cached_response cv with
        | .ok r => .ok (r, [])
        | .error e => .error e
      else
        decideMain reads cfg req decisionId today
    | none => decideMain reads cfg req decisionId today
  match raw with
  | .ok x => .ok x
  | .error e => .error (wrapError e)

/-- A cache store state, as the pipeline observes it between sequential
calls. -/
def Store : Type := String → Option CacheValue

/-- Apply one scheduled write to a store. -/
def applyWrite (s : Store) (w : CacheWrite) : Store :=
  fun k => if k = w.key then some w.value else s k

/-- Apply scheduled writes in order (later writes shadow earlier ones). -/
def applyWrites (s : Store) : List CacheWrite → Store
  | [] => s
  | w :: ws => applyWrites (applyWrite s w) ws

/-- Fault-free reads of the four keys from a store, in gather order. -/
def readsOf (s : Store) (req : RewardRequest) (today : String) : ReadResults :=
  ⟨.ok (s (idemKey req)), .ok (s (personaKey req)),
   .ok (s (txnCountKey req)), .ok (s (cacKey req today))⟩

/-- One sequential decision: read from the store, decide, apply the deferred
writes (the no-concurrent-interleaving scenario of the spec, where the
fire-and-forget writes land before the next call reads). -/
def decideStep (s : Store) (cfg : Config) (req : RewardRequest)
    (decisionId today : String) : Except EngineError (RewardResponse × Store) :=
  match calculate_reward (readsOf s req today) cfg req decisionId today with
  | .ok (r, ws) => .ok (r, applyWrites s ws)
  | .error e => .error e

/-! ### Cache layer models (`app/cache/memory_cache.py`, `app/cache/redis_cache.py`) -/

/-- Association-list lookup (first binding wins), modelling dict lookup for
stores whose update always replaces existing bindings. -/
def lookupAssoc {α : Type} : List (String × α) → String → Option α
  | [], _ => none
  | (k, v) :: rest, key => if k = key then some v else lookupAssoc rest key

/-- Association-list update: bind `key ↦ v`, dropping any previous binding. -/
def updateAssoc {α : Type} (l : List (String × α)) (key : String) (v : α) :
    List (String × α) :=
  (key, v) :: l.filter (fun p => p.1 ≠ key)

/-- The JSON-serializable payloads the serialization layer is exercised with
here (the engine writes strings, integers and record mappings; string and
integer payloads suffice for the stated properties). -/
inductive JsonVal where
  | jStr (s : String)
  | jInt (n : Int)
deriving DecidableEq, Repr

/-- From `json.dumps` string escaping for the two escapes that can occur in the
modelled payloads (backslash and double quote). -/
def jsonEscape (s : String) : String :=
  String.mk (s.data.flatMap (fun c =>
    if c = '\\' then ['\\', '\\']
    else if c = '"' then ['\\', '"']
    else [c]))

/-- From `json.dumps` on a modelled payload. -/
def jsonEncode : JsonVal → String
  | .jStr s => "\"" ++ jsonEscape s ++ "\""
  | .jInt n => toString n

/-- Inverse of `jsonEscape` (helper for `jsonDecode`). -/
def jsonUnescape (s : String) : String :=
  String.mk (go s.data)
where
  go : List Char → List Char
  | [] => []
  | ['\\'] => ['\\']
  | '\\' :: c :: rest => c :: go rest
  | c :: rest => c :: go rest

/-- From `json.loads` on the encodings reachable in this model: a quoted string
decodes to the string, a bare integer literal to the integer; anything else
is a decode failure. -/
def jsonDecode (s : String) : Option JsonVal :=
  if 2 ≤ s.length ∧ s.front = '"' ∧ s.back = '"' then
    some (.jStr (jsonUnescape ((s.drop 1).dropRight 1)))
  else
    match s.toInt? with
    | some n => some (.jInt n)
    | none => none

/-- The state of the networked cache client that the serialization layer
touches: the remote key/value store (string-valued, `decode_responses=True`)
and `_serialization_cache` (`key ↦ (serialized, time)`).  The remote server
applies TTL expiry itself, so the store model is its pre-expiry content.
Timestamps (`time.time()`) are modelled in whole seconds (`Int`); the windows
compared against (60 s TTL) are whole seconds in the source. -/
structure RedisState where
  store : List (String × String)
  serCache : List (String × String × Int)
deriving DecidableEq, Repr

/-- From `redis_cache.py:114-128` — `_serialize_value`: if a serialization-cache
entry for this *key* is younger than 60 s, return the cached encoded string
(whatever value it encoded); otherwise encode the value and cache it. -/
def _serialize_value (st : RedisState) (value : JsonVal) (key : String)
    (now : Int) : String × RedisState :=
  let fresh :=
    let serialized := jsonEncode value
    (serialized, { st with serCache := updateAssoc st.serCache key (serialized, now) })
  match lookupAssoc st.serCache key with
  | some (cachedSerialized, cacheTime) =>
    if now - cacheTime < 60 then (cachedSerialized, st) else fresh
  | none => fresh

/-- From `redis_cache.py:184-227` — `RedisCache.set` on the fault-free path:
serialize (through the serialization cache), `SETEX` the encoded string,
reset the consecutive-error count, return success. -/
def RedisCache.set (st : RedisState) (key : String) (value : JsonVal)
    (now : Int) : Bool × RedisState :=
  let (serialized, st1) := _serialize_value st value key now
  (true, { st1 with store := updateAssoc st1.store key serialized })

/-- From `redis_cache.py:130-182` — `RedisCache.get` on the fault-free path: a
missing key returns `None`; otherwise parse the stored string as JSON,
falling back to the raw string when parsing fails. -/
def RedisCache.get (st : RedisState) (key : String) : Option JsonVal :=
  match lookupAssoc st.store key with
  | none => none
  | some data =>
    match jsonDecode data with
    | some v => some v
    | none => some (.jStr data)

/-- The state of the in-process fallback cache (`MemoryCache.store`):
`key ↦ (value, expiry)`, expiry `none` when the entry never expires. -/
structure MemState where
  store : List (String × JsonVal × Option Int)
deriving DecidableEq, Repr

/-- From `memory_cache.py:22-40` — `MemoryCache.get`: missing key → `None`; an
entry whose expiry has passed is deleted and treated as missing; otherwise
return the stored value.  (`if expiry` is Python truthiness; `set` only ever
stores `None` or a positive timestamp, mapped here to `Option`.) -/
def MemoryCache.get (st : MemState) (key : String) (now : Int) :
    Option JsonVal × MemState :=
  match lookupAssoc st.store key with
  | none => (none, st)
  | some (data, expiry) =>
    match expiry with
    | some e =>
      if e < now then
        (none, { st with store := st.store.filter (fun p => p.1 ≠ key) })
      else (some data, st)
    | none => (some data, st)

/-- From `memory_cache.py:42-70` — `MemoryCache.set` (undersized-store path plus
eviction): at capacity with a new key, evict the first expired entry, else
the first-inserted entry; then store `(value, now + ttl)` (or no expiry when
`ttl` is absent). -/
def MemoryCache.set (st : MemState) (maxSize : Option Nat) (key : String)
    (value : JsonVal) (ttl : Option Int) (now : Int) : Bool × MemState :=
  let needEvict : Bool :=
    match maxSize with
    | some m => decide (m ≤ st.store.length) && decide (lookupAssoc st.store key = none)
    | none => false
  let store1 :=
    if needEvict then
      match st.store.find? (fun p =>
          match p.2.2 with
          | some e => decide (e < now)
          | none => false) with
      | some p => st.store.filter (fun q => q.1 ≠ p.1)
      | none =>
        match st.store with
        | [] => []
        | q :: rest => (q :: rest).filter (fun r => r.1 ≠ q.1)
    else st.store
  let expiry := ttl.map (fun t => now + t)
  (true, { st with store := updateAssoc store1 key (value, expiry) })

/-- The capability contract of §4.1 of the design: the method set both cache
backend variants are claimed to implement. -/
def cacheContractMethods : List String :=
  ["get", "set", "mget", "mset", "ping", "close"]

/-- The public methods defined by `MemoryCache`
(`app/cache/memory_cache.py:8-127`): `get`, `set`, `mget`, `mset` — and no
others; in particular neither `ping` nor `close` is defined. -/
def memoryCacheMethods : List String := ["get", "set", "mget", "mset"]

/-- The public methods defined by `RedisCache` (`app/cache/redis_cache.py`):
`get`, `set`, `mget`, `mset`, `pipeline`, `ping`, `close`. -/
def redisCacheMethods : List String :=
  ["get", "set", "mget", "mset", "pipeline", "ping", "close"]

/-! ### Derived notions and concrete fixtures -/

/-- Tier order on personas: NEW < RETURNING < POWER. -/
def personaRank : Persona → Nat
  | .NEW => 0
  | .RETURNING => 1
  | .POWER => 2

/-- The idempotency read does not short-circuit: the key is absent (or the
read failed), or the stored value is falsy. -/
def idemAbsent (x : ReadRes) : Prop :=
  match readIdem x with
  | none => True
  | some v => v.truthy = false

/-- The Policy Configuration used by the test suite of the repository
(`tests/conftest.py` / `tests/test_reward_decision_logic.py`). -/
def cfgStd : Config := {
  xp_per_rupee := some 1
  max_xp_per_txn := some 500
  persona_multipliers := some (fun p => match p with
    | .NEW => some (3 / 2)
    | .RETURNING => some (6 / 5)
    | .POWER => some 1)
  daily_cac_limit := some (fun p => match p with
    | .NEW => some 200
    | .RETURNING => some 150
    | .POWER => some 100)
  feature_flags := some ⟨true, false⟩
  policy_version := some "v1"
  gold_reward_value := some 50
  cache_persona_ttl := some 2592000
  cache_cac_ttl := some 86400
  cache_idempotency_ttl := some 86400 }

/-- A validated configuration whose RETURNING cap limit exceeds its NEW cap
limit (all fields within the validation rules). -/
def cfgPromo : Config := {
  xp_per_rupee := some 1
  max_xp_per_txn := some 500
  persona_multipliers := some (fun _ => some 1)
  daily_cac_limit := some (fun p => match p with
    | .NEW => some 10
    | .RETURNING => some 1000
    | .POWER => some 1000)
  feature_flags := some ⟨false, false⟩
  policy_version := some "v1"
  gold_reward_value := some 50
  cache_persona_ttl := some 2592000
  cache_cac_ttl := some 86400
  cache_idempotency_ttl := some 86400 }

/-- A malformed Policy Configuration: the required key `xp_per_rupee` is
absent. -/
def cfgMissing : Config := {
  xp_per_rupee := none
  max_xp_per_txn := some 500
  persona_multipliers := some (fun _ => some 1)
  daily_cac_limit := some (fun _ => some 100)
  feature_flags := some ⟨false, false⟩
  policy_version := some "v1"
  gold_reward_value := some 50
  cache_persona_ttl := none
  cache_cac_ttl := none
  cache_idempotency_ttl := none }

/-- A valid transaction request. -/
def reqT1 : RewardRequest := ⟨"t1", "u1", "m1", 100⟩

/-- A second valid request by the same user for a different transaction. -/
def reqT2 : RewardRequest := ⟨"t2", "u1", "m1", 100⟩

/-- Four fault-free reads that all miss. -/
def readsAbsent : ReadResults := ⟨.ok none, .ok none, .ok none, .ok none⟩

/-- The empty cache store. -/
def emptyStore : Store := fun _ => none

/-- A store for user `u1` on day `d`: transaction count 1, CAC usage 10
(at the NEW cap limit of `cfgPromo`), no idempotency records. -/
def c3Store : Store := fun k =>
  if k = "txn_count:u1" then some (.vInt 1)
  else if k = "cac:u1:d" then some (.vInt 10)
  else none

/-- The configuration values extracted from `cfgStd` for persona NEW. -/
def valsStd : CfgVals :=
  ⟨1, 500, 3 / 2, 200, true, false, "v1", 50, 2592000, 86400, 86400⟩

/-- The Decision Record produced for `reqT1` on empty state under `cfgStd`
(§8 scenario: amount 100, NEW ×1.5 ⇒ 150 XP, cashback 150). -/
def respStd : RewardResponse :=
  ⟨"id1", "v1", .CHECKOUT, 150, 150, [.CASHBACK_GRANTED], .NEW, 0, 200⟩

/-- The deferred writes scheduled for that decision. -/
def wsStd : List CacheWrite :=
  [⟨"persona:u1", .vStr "NEW", 2592000⟩,
   ⟨"txn_count:u1", .vInt 1, 2592000⟩,
   ⟨"cac:u1:d", .vInt 150, 86400⟩,
   ⟨"idem:t1:u1:m1", .vResp respStd, 86400⟩]

/-- The store after the writes of the first decision land. -/
def s1Std : Store := applyWrites emptyStore wsStd

/-- The Decision Record for the follow-up transaction `reqT2` against
`s1Std`: count 2, still NEW, CAC 150 of 200 ⇒ cashback 50. -/
def resp2Std : RewardResponse :=
  ⟨"id2", "v1", .CHECKOUT, 50, 150, [.CASHBACK_GRANTED], .NEW, 150, 200⟩

/-- The deferred writes of that second decision. -/
def ws2Std : List CacheWrite :=
  [⟨"persona:u1", .vStr "NEW", 2592000⟩,
   ⟨"txn_count:u1", .vInt 2, 2592000⟩,
   ⟨"cac:u1:d", .vInt 200, 86400⟩,
   ⟨"idem:t2:u1:m1", .vResp resp2Std, 86400⟩]

/-- First decision of the cap/promotion scenario under `cfgPromo`: count
1→2, persona NEW, CAC 10 at the NEW limit 10 ⇒ cap exceeded, XP 100. -/
def c3r1 : RewardResponse :=
  ⟨"id1", "v1", .XP, 100, 100, [.DAILY_CAC_EXCEEDED], .NEW, 10, 10⟩

/-- The deferred writes of that decision (CAC grows 10 → 110). -/
def c3ws1 : List CacheWrite :=
  [⟨"persona:u1", .vStr "NEW", 2592000⟩,
   ⟨"txn_count:u1", .vInt 2, 2592000⟩,
   ⟨"cac:u1:d", .vInt 110, 86400⟩,
   ⟨"idem:t1:u1:m1", .vResp c3r1, 86400⟩]

/-- The store after that decision. -/
def c3s1 : Store := applyWrites c3Store c3ws1

/-- Second decision of the scenario: count 2→3 promotes NEW → RETURNING,
whose cap limit is 1000, re-opening headroom (110 < 1000) ⇒ cashback. -/
def c3r2 : RewardResponse :=
  ⟨"id2", "v1", .CHECKOUT, 100, 100, [.CASHBACK_GRANTED], .RETURNING, 110, 1000⟩

/-- The deferred writes of that second decision. -/
def c3ws2 : List CacheWrite :=
  [⟨"persona:u1", .vStr "RETURNING", 2592000⟩,
   ⟨"txn_count:u1", .vInt 3, 2592000⟩,
   ⟨"cac:u1:d", .vInt 210, 86400⟩,
   ⟨"idem:t2:u1:m1", .vResp c3r2, 86400⟩]

/-! ### Helper lemmas -/

theorem pyInt_eq_floor {q : ℚ} (h : 0 ≤ q) : pyInt q = ⌊q⌋ := by
  unfold pyInt
  exact if_pos h

theorem pyInt_nonneg {q : ℚ} (h : 0 ≤ q) : 0 ≤ pyInt q := by
  rw [pyInt_eq_floor h]
  exact Int.floor_nonneg.mpr h

theorem readCac_nonneg (x : ReadRes) : 0 ≤ readCac x := by
  unfold readCac
  rcases x with e | v
  · simp
  · rcases v with _ | cv
    · simp
    · rcases cv with n | q | s | r
      · exact le_max_left 0 n
      · exact le_max_left 0 _
      · rcases h : pyFloat s with _ | q <;> simp [h]
      · simp

theorem computeXp_nonneg (a p m mx : ℚ) : 0 ≤ computeXp a p m mx :=
  le_max_left 0 _

theorem getCfgVals_ok_nonneg {cfg : Config} {p : Persona} {vals : CfgVals}
    (h : getCfgVals cfg p = .ok vals) :
    0 ≤ vals.xp_per_rupee ∧ 0 ≤ vals.multiplier ∧ 0 ≤ vals.max_xp ∧
      0 ≤ vals.daily_limit := by
  simp only [getCfgVals] at h
  repeat' split at h
  all_goals try exact Except.noConfusion h
  rename_i h1 h2 h3 h4
  simp only [Except.ok.injEq] at h
  subst h
  exact ⟨not_lt.mp h1, not_lt.mp h2, not_lt.mp h3, not_lt.mp h4⟩

theorem rewardBranch_cap {vals : CfgVals} {cac : Int} {p : Persona} {xp : Int}
    {t : RewardType × Int × ReasonCode} (hcap : vals.daily_limit ≤ cac)
    (h : rewardBranch vals cac p xp = .ok t) :
    t = (.XP, xp, .DAILY_CAC_EXCEEDED) := by
  unfold rewardBranch at h
  rw [if_pos hcap] at h
  exact (Except.ok.inj h).symm

theorem rewardBranch_gold {vals : CfgVals} {cac : Int} {p : Persona} {xp : Int}
    {t : RewardType × Int × ReasonCode} (hcap : ¬ vals.daily_limit ≤ cac)
    (hg : vals.prefer_gold = true) (hp : p = .POWER)
    (h : rewardBranch vals cac p xp = .ok t) :
    0 ≤ vals.gold_reward_value ∧ t = (.GOLD, pyInt vals.gold_reward_value, .GOLD_GRANTED) := by
  unfold rewardBranch at h
  rw [if_neg (by exact fun hc => hcap hc), if_pos ⟨hg, hp⟩] at h
  by_cases hneg : vals.gold_reward_value < 0
  · rw [if_pos hneg] at h
    exact absurd h (by simp)
  · rw [if_neg hneg] at h
    exact ⟨le_of_not_lt hneg, (Except.ok.inj h).symm⟩

theorem rewardBranch_xp {vals : CfgVals} {cac : Int} {p : Persona} {xp : Int}
    {t : RewardType × Int × ReasonCode} (hcap : ¬ vals.daily_limit ≤ cac)
    (hg : ¬ (vals.prefer_gold = true ∧ p = .POWER)) (hx : vals.prefer_xp = true)
    (h : rewardBranch vals cac p xp = .ok t) :
    t = (.XP, xp, .XP_APPLIED) := by
  unfold rewardBranch at h
  rw [if_neg (by exact fun hc => hcap hc), if_neg hg, if_pos hx] at h
  exact (Except.ok.inj h).symm

theorem rewardBranch_cashback {vals : CfgVals} {cac : Int} {p : Persona}
    {xp : Int} {t : RewardType × Int × ReasonCode}
    (hcap : ¬ vals.daily_limit ≤ cac)
    (hg : ¬ (vals.prefer_gold = true ∧ p = .POWER)) (hx : vals.prefer_xp = false)
    (h : rewardBranch vals cac p xp = .ok t) :
    t = (.CHECKOUT, min (max 0 (vals.daily_limit - cac)) xp, .CASHBACK_GRANTED) := by
  unfold rewardBranch at h
  rw [if_neg (by exact fun hc => hcap hc), if_neg hg, if_neg (by simp [hx])] at h
  exact (Except.ok.inj h).symm

theorem rewardBranch_ok_nonneg {vals : CfgVals} {cac : Int} {p : Persona}
    {xp : Int} {rt : RewardType} {rv : Int} {reason : ReasonCode}
    (hxp : 0 ≤ xp) (h : rewardBranch vals cac p xp = .ok (rt, rv, reason)) :
    0 ≤ rv := by
  unfold rewardBranch at h
  split at h
  · simp only [Except.ok.injEq, Prod.mk.injEq] at h
    obtain ⟨-, hrv, -⟩ := h
    omega
  · split at h
    · split at h
      · exact absurd h (by simp)
      · rename_i hneg
        simp only [Except.ok.injEq, Prod.mk.injEq] at h
        obtain ⟨-, hrv, -⟩ := h
        rw [← hrv]
        exact pyInt_nonneg (le_of_not_lt hneg)
    · split at h
      · simp only [Except.ok.injEq, Prod.mk.injEq] at h
        obtain ⟨-, hrv, -⟩ := h
        omega
      · simp only [Except.ok.injEq, Prod.mk.injEq] at h
        obtain ⟨-, hrv, -⟩ := h
        have h1 : (0 : Int) ≤ min (max 0 (vals.daily_limit - cac)) xp :=
          le_min (le_max_left 0 _) hxp
        omega

theorem calculate_reward_eq_main {reads : ReadResults} {cfg : Config}
    {req : RewardRequest} {decisionId today : String}
    (h : idemAbsent reads.idem) :
    calculate_reward reads cfg req decisionId today =
      match decideMain reads cfg req decisionId today with
      | .ok x => .ok x
      | .error e => .error (wrapError e) := by
  unfold calculate_reward
  unfold idemAbsent at h
  cases hv : readIdem reads.idem with
  | none => rfl
  | some v =>
    rw [hv] at h
    simp only [h, Bool.false_eq_true, if_false]

theorem calculate_reward_ok_cases {reads : ReadResults} {cfg : Config}
    {req : RewardRequest} {decisionId today : String} {r : RewardResponse}
    {ws : List CacheWrite}
    (h : calculate_reward reads cfg req decisionId today = .ok (r, ws)) :
    (readIdem reads.idem = some (.vResp r) ∧ ws = []) ∨
      decideMain reads cfg req decisionId today = .ok (r, ws) := by
  unfold calculate_reward at h
  cases hv : readIdem reads.idem with
  | none =>
    simp only [hv] at h
    right
    cases hm : decideMain reads cfg req decisionId today with
    | ok x =>
      rw [hm] at h
      cases x
      exact h
    | error e =>
      rw [hm] at h
      exact Except.noConfusion h
  | some v =>
    simp only [hv] at h
    by_cases ht : v.truthy
    · rw [if_pos ht] at h
      cases v with
      | vResp r0 =>
        left
        simp only [_get_cached_response, Except.ok.injEq, Prod.mk.injEq] at h
        obtain ⟨h1, h2⟩ := h
        subst h1
        exact ⟨rfl, h2.symm⟩
      | vInt n => exact absurd h (by simp [_get_cached_response])
      | vFloat q => exact absurd h (by simp [_get_cached_response])
      | vStr s => exact absurd h (by simp [_get_cached_response])
    · rw [if_neg ht] at h
      right
      cases hm : decideMain reads cfg req decisionId today with
      | ok x =>
        rw [hm] at h
        cases x
        exact h
      | error e =>
        rw [hm] at h
        exact Except.noConfusion h

theorem decideMain_ok_shape {reads : ReadResults} {cfg : Config}
    {req : RewardRequest} {decisionId today : String} {r : RewardResponse}
    {ws : List CacheWrite}
    (h : decideMain reads cfg req decisionId today = .ok (r, ws)) :
    ∃ vals rt rv reason,
      getCfgVals cfg (promote (readPersona reads.persona)
        (readTxnCount reads.txnCount + 1)) = .ok vals ∧
      rewardBranch vals (readCac reads.cac)
        (promote (readPersona reads.persona) (readTxnCount reads.txnCount + 1))
        (computeXp req.amount vals.xp_per_rupee vals.multiplier vals.max_xp) =
        .ok (rt, rv, reason) ∧
      r = { decision_id := decisionId
            policy_version := vals.policy_version
            reward_type := rt
            reward_value := rv
            xp := computeXp req.amount vals.xp_per_rupee vals.multiplier vals.max_xp
            reason_codes := [reason]
            meta_persona := promote (readPersona reads.persona)
              (readTxnCount reads.txnCount + 1)
            meta_daily_cac_used := readCac reads.cac
            meta_daily_cac_limit := vals.daily_limit } ∧
      ws = [⟨personaKey req,
              .vStr (promote (readPersona reads.persona)
                (readTxnCount reads.txnCount + 1)).str, vals.persona_ttl⟩,
            ⟨txnCountKey req, .vInt (readTxnCount reads.txnCount + 1),
              vals.persona_ttl⟩,
            ⟨cacKey req today, .vInt (readCac reads.cac + rv), vals.cac_ttl⟩,
            ⟨idemKey req, .vResp r, vals.idempotency_ttl⟩] := by
  simp only [decideMain] at h
  split at h
  · exact Except.noConfusion h
  · rename_i vals hg
    split at h
    · exact Except.noConfusion h
    · rename_i t rt rv reason hb
      simp only [Except.ok.injEq, Prod.mk.injEq] at h
      obtain ⟨hr, hw⟩ := h
      exact ⟨vals, rt, rv, reason, hg, hb, hr.symm, by rw [← hw, ← hr]⟩

theorem applyWrites_four (s : Store) (w1 w2 w3 w4 : CacheWrite) (k : String) :
    applyWrites s [w1, w2, w3, w4] k =
      if k = w4.key then some w4.value
      else if k = w3.key then some w3.value
      else if k = w2.key then some w2.value
      else if k = w1.key then some w1.value
      else s k := rfl

theorem personaKey_ne_idemKey (req1 req2 : RewardRequest) :
    personaKey req1 ≠ idemKey req2 := by
  intro h
  have h2 := congrArg String.data h
  simp [personaKey, idemKey, String.data_append] at h2

theorem txnCountKey_ne_idemKey (req1 req2 : RewardRequest) :
    txnCountKey req1 ≠ idemKey req2 := by
  intro h
  have h2 := congrArg String.data h
  simp [txnCountKey, idemKey, String.data_append] at h2

theorem cacKey_ne_idemKey (req1 req2 : RewardRequest) (today : String) :
    cacKey req1 today ≠ idemKey req2 := by
  intro h
  have h2 := congrArg String.data h
  simp [cacKey, idemKey, String.data_append] at h2

/-! ### Concrete evaluations of the embedded pipeline -/

theorem eval_std :
    calculate_reward readsAbsent cfgStd reqT1 "id1" "d" = .ok (respStd, wsStd) := by
  norm_num [calculate_reward, decideMain, readsAbsent, cfgStd, reqT1, getCfgVals,
    readPersona, readTxnCount, readCac, promote, computeXp, rewardBranch, pyInt,
    readIdem, respStd, wsStd, personaKey, txnCountKey, cacKey, idemKey,
    Persona.str]
  simp [wrapError, respStd, wsStd]

theorem eval_valsStd :
    getCfgVals cfgStd (promote (readPersona readsAbsent.persona)
      (readTxnCount readsAbsent.txnCount + 1)) = .ok valsStd := by
  norm_num [getCfgVals, cfgStd, readsAbsent, readPersona, readTxnCount, promote,
    pyInt, valsStd]

theorem eval_step1 :
    decideStep emptyStore cfgStd reqT1 "id1" "d" = .ok (respStd, s1Std) := by
  have e1 : calculate_reward (readsOf emptyStore reqT1 "d") cfgStd reqT1 "id1" "d" =
      .ok (respStd, wsStd) := by
    norm_num [calculate_reward, decideMain, readsOf, emptyStore, cfgStd, reqT1,
      getCfgVals, readPersona, readTxnCount, readCac, promote, computeXp,
      rewardBranch, pyInt, readIdem, respStd, wsStd, personaKey, txnCountKey,
      cacKey, idemKey, Persona.str]
    simp [wrapError, respStd, wsStd]
  unfold decideStep
  rw [e1]
  rfl

theorem eval_step2calc :
    calculate_reward (readsOf s1Std reqT2 "d") cfgStd reqT2 "id2" "d" =
      .ok (resp2Std, ws2Std) := by
  norm_num [calculate_reward, decideMain, readsOf, s1Std, applyWrites, applyWrite,
    emptyStore, wsStd, respStd, cfgStd, reqT2, getCfgVals, readPersona,
    readTxnCount, readCac, promote, computeXp, rewardBranch, pyInt, readIdem,
    resp2Std, ws2Std, personaKey, txnCountKey, cacKey, idemKey, Persona.str,
    CacheValue.truthy, _get_valid_persona]
  simp [wrapError, resp2Std, ws2Std]
  norm_num [pyInt]
  try simp [resp2Std, ws2Std]

theorem eval_c3step1 :
    decideStep c3Store cfgPromo reqT1 "id1" "d" = .ok (c3r1, c3s1) := by
  have e1 : calculate_reward (readsOf c3Store reqT1 "d") cfgPromo reqT1 "id1" "d" =
      .ok (c3r1, c3ws1) := by
    norm_num [calculate_reward, decideMain, readsOf, c3Store, cfgPromo, reqT1,
      getCfgVals, readPersona, readTxnCount, readCac, promote, computeXp,
      rewardBranch, pyInt, readIdem, c3r1, c3ws1, personaKey, txnCountKey,
      cacKey, idemKey, Persona.str, CacheValue.truthy, _get_valid_persona]
    simp [wrapError, c3r1, c3ws1]
  unfold decideStep
  rw [e1]
  rfl

theorem eval_c3step2calc :
    calculate_reward (readsOf c3s1 reqT2 "d") cfgPromo reqT2 "id2" "d" =
      .ok (c3r2, c3ws2) := by
  norm_num [calculate_reward, decideMain, readsOf, c3s1, applyWrites, applyWrite,
    c3Store, c3ws1, c3r1, cfgPromo, reqT2, getCfgVals, readPersona, readTxnCount,
    readCac, promote, computeXp, rewardBranch, pyInt, readIdem, c3r2, c3ws2,
    personaKey, txnCountKey, cacKey, idemKey, Persona.str, CacheValue.truthy,
    _get_valid_persona]
  simp [wrapError, c3r2, c3ws2]
  try norm_num [pyInt]
  try simp [c3r2, c3ws2]

theorem promote_cases (p : Persona) (c : Int) :
    promote p c = p ∨ (p = .NEW ∧ promote p c = .RETURNING) ∨
      (p = .RETURNING ∧ promote p c = .POWER) := by
  cases p <;> unfold promote <;> split
  · exact Or.inr (Or.inl ⟨rfl, rfl⟩)
  · split
    · rename_i hcond
      exact absurd hcond.1 (by decide)
    · exact Or.inl rfl
  · rename_i hcond
    exact absurd hcond.1 (by decide)
  · split
    · exact Or.inr (Or.inr ⟨rfl, rfl⟩)
    · exact Or.inl rfl
  · rename_i hcond
    exact absurd hcond.1 (by decide)
  · split
    · rename_i hcond
      exact absurd hcond.1 (by decide)
    · exact Or.inl rfl

theorem calculate_reward_fresh_ok {reads : ReadResults} {cfg : Config}
    {req : RewardRequest} {decisionId today : String} {r : RewardResponse}
    {ws : List CacheWrite} (hmiss : idemAbsent reads.idem)
    (h : calculate_reward reads cfg req decisionId today = .ok (r, ws)) :
    decideMain reads cfg req decisionId today = .ok (r, ws) := by
  rcases calculate_reward_ok_cases h with ⟨hi, -⟩ | hm
  · unfold idemAbsent at hmiss
    rw [hi] at hmiss
    simp [CacheValue.truthy] at hmiss
  · exact hm

theorem getCfgVals_error_valueError {cfg : Config} {p : Persona}
    {e : EngineError} (h : getCfgVals cfg p = .error e) :
    ∃ m, e = .valueError m := by
  unfold getCfgVals at h
  repeat' split at h
  all_goals first
  | exact Except.noConfusion h
  | exact ⟨_, (Except.error.inj h).symm⟩

theorem rewardBranch_error_valueError {vals : CfgVals} {cac : Int}
    {p : Persona} {xp : Int} {e : EngineError}
    (h : rewardBranch vals cac p xp = .error e) : ∃ m, e = .valueError m := by
  unfold rewardBranch at h
  repeat' split at h
  all_goals first
  | exact Except.noConfusion h
  | exact ⟨_, (Except.error.inj h).symm⟩

theorem decideMain_error_valueError {reads : ReadResults} {cfg : Config}
    {req : RewardRequest} {decisionId today : String} {e : EngineError}
    (h : decideMain reads cfg req decisionId today = .error e) :
    ∃ m, e = .valueError m := by
  simp only [decideMain] at h
  split at h
  · rename_i e0 hg
    obtain ⟨m, hm⟩ := getCfgVals_error_valueError hg
    have he : e0 = e := Except.error.inj h
    exact ⟨m, he ▸ hm⟩
  · rename_i vals hg
    split at h
    · rename_i e0 hb
      obtain ⟨m, hm⟩ := rewardBranch_error_valueError hb
      have he : e0 = e := Except.error.inj h
      exact ⟨m, he ▸ hm⟩
    · exact Except.noConfusion h

/-! ### Claim theorems -/

/-- C6: on the networked cache client, set-then-get does NOT round-trip when
an earlier `set` of a different value on the same key happened within the
60-second serialization-cache window: the serialization cache is keyed by
cache key only and never compares the value, so the second `set` stores the
stale encoding of the earlier value.  Evaluating the embedded code at the
failing input (`set k "a"` at t=0, `set k "b"` at t=10, then `get k`): the
read returns "a", not "b". -/
theorem claim_C6_stale_second_set :
    RedisCache.get
      ((RedisCache.set ((RedisCache.set ⟨[], []⟩ "k" (.jStr "a") 0).2)
        "k" (.jStr "b") 10).2) "k" = some (.jStr "a") ∧
    ((RedisCache.set ((RedisCache.set ⟨[], []⟩ "k" (.jStr "a") 0).2)
        "k" (.jStr "b") 10).2).store = [("k", "\"a\"")] ∧
    some (JsonVal.jStr "a") ≠ some (JsonVal.jStr "b") := by
  decide

/-- C8: a failed (exception) result of any of the four concurrent cache
reads is treated exactly as if that key were absent: replacing any one read
result by an exception yields the very same outcome of `calculate_reward` as
replacing it by an absent key, and the decoders default the persona to NEW
and the counters to 0 on both an exception and a miss. -/
theorem claim_C8_read_failure_as_absent :
    (∀ (reads : ReadResults) (cfg : Config) (req : RewardRequest)
       (decisionId today : String),
      calculate_reward ⟨.error (), reads.persona, reads.txnCount, reads.cac⟩
          cfg req decisionId today =
        calculate_reward ⟨.ok none, reads.persona, reads.txnCount, reads.cac⟩
          cfg req decisionId today) ∧
    (∀ (reads : ReadResults) (cfg : Config) (req : RewardRequest)
       (decisionId today : String),
      calculate_reward ⟨reads.idem, .error (), reads.txnCount, reads.cac⟩
          cfg req decisionId today =
        calculate_reward ⟨reads.idem, .ok none, reads.txnCount, reads.cac⟩
          cfg req decisionId today) ∧
    (∀ (reads : ReadResults) (cfg : Config) (req : RewardRequest)
       (decisionId today : String),
      calculate_reward ⟨reads.idem, reads.persona, .error (), reads.cac⟩
          cfg req decisionId today =
        calculate_reward ⟨reads.idem, reads.persona, .ok none, reads.cac⟩
          cfg req decisionId today) ∧
    (∀ (reads : ReadResults) (cfg : Config) (req : RewardRequest)
       (decisionId today : String),
      calculate_reward ⟨reads.idem, reads.persona, reads.txnCount, .error ()⟩
          cfg req decisionId today =
        calculate_reward ⟨reads.idem, reads.persona, reads.txnCount, .ok none⟩
          cfg req decisionId today) ∧
    readIdem (.error ()) = readIdem (.ok none) ∧
    readPersona (.error ()) = .NEW ∧
    readTxnCount (.error ()) = 0 ∧
    readCac (.error ()) = 0 :=
  ⟨fun _ _ _ _ _ => rfl, fun _ _ _ _ _ => rfl, fun _ _ _ _ _ => rfl,
   fun _ _ _ _ _ => rfl, rfl, rfl, rfl, rfl⟩

/-- C9 counterexample: the capability contract requires `ping` and `close`,
but the in-process fallback (`MemoryCache`, `memory_cache.py:8-127`) defines
neither — the two backend variants do not implement the contract
identically. -/
theorem claim_C9_counterexample :
    ("ping" ∈ cacheContractMethods ∧ "ping" ∉ memoryCacheMethods) ∧
    ("close" ∈ cacheContractMethods ∧ "close" ∉ memoryCacheMethods) := by
  decide

/-- C9 amended: only the networked client implements the full contract
{get, set, multi-get, multi-set, ping, close}; the in-process fallback
implements only {get, set, multi-get, multi-set} (neither `ping` nor
`close`); on both variants, `get` on a missing key — and, on the fallback,
on an expired key — returns absent rather than raising. -/
theorem claim_C9_amended :
    (∀ m, m ∈ cacheContractMethods → m ∈ redisCacheMethods) ∧
    (∀ m, m ∈ memoryCacheMethods → m ∈ cacheContractMethods) ∧
    "ping" ∉ memoryCacheMethods ∧ "close" ∉ memoryCacheMethods ∧
    (∀ (st : MemState) (key : String) (now : Int),
      lookupAssoc st.store key = none → MemoryCache.get st key now = (none, st)) ∧
    (∀ (st : MemState) (key : String) (now : Int) (v : JsonVal) (e : Int),
      lookupAssoc st.store key = some (v, some e) → e < now →
      (MemoryCache.get st key now).1 = none) ∧
    (∀ (st : RedisState) (key : String),
      lookupAssoc st.store key = none → RedisCache.get st key = none) := by
  refine ⟨by decide, by decide, by decide, by decide, ?_, ?_, ?_⟩
  · intro st key now hmiss
    unfold MemoryCache.get
    rw [hmiss]
  · intro st key now v e hfind hexp
    unfold MemoryCache.get
    rw [hfind]
    simp [hexp]
  · intro st key hmiss
    unfold RedisCache.get
    rw [hmiss]

/-- C9 witness for the amended theorem: concrete instances — `ping` is in
the contract and provided by the networked client; `get` on the empty
fallback store and on an expired entry return absent. -/
theorem claim_C9_witness :
    "ping" ∈ redisCacheMethods ∧
    MemoryCache.get ⟨[]⟩ "k" 0 = (none, ⟨[]⟩) ∧
    (MemoryCache.get ⟨[("k", .jInt 7, some 3)]⟩ "k" 5).1 = none ∧
    RedisCache.get ⟨[], []⟩ "k" = none :=
  ⟨claim_C9_amended.1 "ping" (by decide),
   claim_C9_amended.2.2.2.2.1 ⟨[]⟩ "k" 0 rfl,
   claim_C9_amended.2.2.2.2.2.1 ⟨[("k", .jInt 7, some 3)]⟩ "k" 5 (.jInt 7) 3 rfl
     (by decide),
   claim_C9_amended.2.2.2.2.2.2 ⟨[], []⟩ "k" rfl⟩

/-- C10: in a single call the persona advances by at most one tier: an input
persona of NEW (including an absent or unrecognized cached value, which is
normalized to NEW) is promoted at most to RETURNING, never directly to
POWER, even when the post-increment count is ≥ 10; POWER is newly reached
only when the input persona is already RETURNING. -/
theorem claim_C10_one_tier_per_call :
    (∀ c : Int, promote .NEW c ≠ .POWER) ∧
    (∀ (p : Persona) (c : Int), promote p c = .POWER → p ≠ .POWER → p = .RETURNING) ∧
    (∀ (p : Persona) (c : Int), personaRank (promote p c) ≤ personaRank p + 1) ∧
    readPersona (.ok none) = .NEW ∧
    (∀ s : String, s ≠ "NEW" → s ≠ "RETURNING" → s ≠ "POWER" →
      readPersona (.ok (some (.vStr s))) = .NEW) ∧
    (∀ c : Int, 10 ≤ c → promote .NEW c = .RETURNING) := by
  have cases10 : ∀ (p : Persona) (c : Int),
      promote p c = p ∨ (p = .NEW ∧ promote p c = .RETURNING) ∨
        (p = .RETURNING ∧ promote p c = .POWER) := by
    intro p c
    cases p <;> unfold promote <;> split
    · exact Or.inr (Or.inl ⟨rfl, rfl⟩)
    · split
      · rename_i hcond
        exact absurd hcond.1 (by decide)
      · exact Or.inl rfl
    · rename_i hcond
      exact absurd hcond.1 (by decide)
    · split
      · exact Or.inr (Or.inr ⟨rfl, rfl⟩)
      · exact Or.inl rfl
    · rename_i hcond
      exact absurd hcond.1 (by decide)
    · split
      · rename_i hcond
        exact absurd hcond.1 (by decide)
      · exact Or.inl rfl
  refine ⟨?_, ?_, ?_, rfl, ?_, ?_⟩
  · intro c h
    rcases cases10 .NEW c with h0 | ⟨-, h0⟩ | ⟨h0, -⟩
    · rw [h0] at h
      exact Persona.noConfusion h
    · rw [h0] at h
      exact Persona.noConfusion h
    · exact Persona.noConfusion h0
  · intro p c h hp
    rcases cases10 p c with h0 | ⟨h1, h2⟩ | ⟨h1, -⟩
    · exact absurd (h0.symm.trans h) hp
    · rw [h] at h2
      exact Persona.noConfusion h2
    · exact h1
  · intro p c
    rcases cases10 p c with h0 | ⟨h1, h0⟩ | ⟨h1, h0⟩ <;> rw [h0] <;> try rw [h1]
    · exact Nat.le_succ _
    · decide
    · decide
  · intro s h1 h2 h3
    by_cases hs : s = ""
    · simp [readPersona, CacheValue.truthy, hs]
    · simp [readPersona, CacheValue.truthy, hs, _get_valid_persona, h1, h2, h3]
  · intro c h
    unfold promote
    rw [if_pos ⟨rfl, by omega⟩]

/-- C10 witness: concrete instances of the promotion bounds — a NEW persona
with post-increment count 10 reaches only RETURNING; POWER at count 10 is
reached from RETURNING; the unrecognized cached string "VIP" normalizes to
NEW. -/
theorem claim_C10_witness :
    Persona.RETURNING = Persona.RETURNING ∧
    promote .NEW 10 = .RETURNING ∧
    readPersona (.ok (some (.vStr "VIP"))) = .NEW :=
  ⟨claim_C10_one_tier_per_call.2.1 .RETURNING 10 (by decide) (by decide),
   claim_C10_one_tier_per_call.2.2.2.2.2 10 (by decide),
   claim_C10_one_tier_per_call.2.2.2.2.1 "VIP" (by decide) (by decide) (by decide)⟩

/-- C4: persona promotion is evaluated on the post-increment transaction
count and is monotonic: NEW becomes RETURNING exactly once the count is ≥ 3,
RETURNING becomes POWER once the count is ≥ 10, POWER never changes, and the
output persona is never a lower tier than the input persona; the persona
reported in the metadata of a fresh decision is the promotion applied to the
normalized cached persona at the incremented count. -/
theorem claim_C4_promotion_monotone :
    (∀ c : Int, 3 ≤ c → promote .NEW c = .RETURNING) ∧
    (∀ c : Int, c < 3 → promote .NEW c = .NEW) ∧
    (∀ c : Int, 10 ≤ c → promote .RETURNING c = .POWER) ∧
    (∀ c : Int, c < 10 → promote .RETURNING c = .RETURNING) ∧
    (∀ c : Int, promote .POWER c = .POWER) ∧
    (∀ (p : Persona) (c : Int), personaRank p ≤ personaRank (promote p c)) ∧
    (∀ (reads : ReadResults) (cfg : Config) (req : RewardRequest)
       (decisionId today : String) (r : RewardResponse) (ws : List CacheWrite),
      idemAbsent reads.idem →
      calculate_reward reads cfg req decisionId today = .ok (r, ws) →
      r.meta_persona =
        promote (readPersona reads.persona) (readTxnCount reads.txnCount + 1)) := by
  refine ⟨?_, ?_, ?_, ?_, ?_, ?_, ?_⟩
  · intro c h
    unfold promote
    rw [if_pos ⟨rfl, h⟩]
  · intro c h
    unfold promote
    rw [if_neg (fun hc => absurd hc.2 (not_le.mpr h)),
      if_neg (fun hc => Persona.noConfusion hc.1)]
  · intro c h
    unfold promote
    rw [if_neg (fun hc => Persona.noConfusion hc.1), if_pos ⟨rfl, h⟩]
  · intro c h
    unfold promote
    rw [if_neg (fun hc => Persona.noConfusion hc.1),
      if_neg (fun hc => absurd hc.2 (not_le.mpr h))]
  · intro c
    unfold promote
    rw [if_neg (fun hc => Persona.noConfusion hc.1),
      if_neg (fun hc => Persona.noConfusion hc.1)]
  · intro p c
    rcases promote_cases p c with h0 | ⟨h1, h0⟩ | ⟨h1, h0⟩
    · rw [h0]
    · rw [h0, h1]
      decide
    · rw [h0, h1]
      decide
  · intro reads cfg req decisionId today r ws hmiss h
    obtain ⟨vals, rt, rv, reason, -, -, hr, -⟩ :=
      decideMain_ok_shape (calculate_reward_fresh_ok hmiss h)
    rw [hr]

/-- C4 witness: the 3rd count promotes NEW to RETURNING, the 10th promotes
RETURNING to POWER, and the concrete first decision on empty state reports
persona `promote NEW 1` in its metadata. -/
theorem claim_C4_witness :
    promote .NEW 3 = .RETURNING ∧ promote .RETURNING 10 = .POWER ∧
    respStd.meta_persona =
      promote (readPersona readsAbsent.persona)
        (readTxnCount readsAbsent.txnCount + 1) :=
  ⟨claim_C4_promotion_monotone.1 3 (by decide),
   claim_C4_promotion_monotone.2.2.1 10 (by decide),
   claim_C4_promotion_monotone.2.2.2.2.2.2 readsAbsent cfgStd reqT1 "id1" "d"
     respStd wsStd trivial eval_std⟩

/-- C7 counterexample: a malformed Policy Configuration (required key
`xp_per_rupee` absent) makes `calculate_reward` raise a `ValueError` — the
same condition class as client input validation errors — which the router
maps to HTTP 400, a client-side status, not a server-side failure. -/
theorem claim_C7_counterexample :
    calculate_reward readsAbsent cfgMissing reqT1 "id1" "d" =
      .error (.valueError
        "Invalid input or configuration: Missing required config key: xp_per_rupee") ∧
    routerStatus (.valueError
      "Invalid input or configuration: Missing required config key: xp_per_rupee") = 400 ∧
    (400 : Nat) < 500 :=
  ⟨rfl, rfl, by decide⟩

/-- C7 amended: every error `decide` raises — configuration errors
included — is a `ValueError` (the condition also used for client input
problems) and maps to HTTP 400; only a `RuntimeError` (the generic
processing failure, which the modelled pure pipeline never produces) maps
to the server-side 500. -/
theorem claim_C7_amended :
    (∀ (reads : ReadResults) (cfg : Config) (req : RewardRequest)
       (decisionId today : String) (e : EngineError),
      calculate_reward reads cfg req decisionId today = .error e →
      (∃ m, e = .valueError m) ∧ routerStatus e = 400) ∧
    (∀ m, routerStatus (.runtimeError m) = 500) := by
  refine ⟨?_, fun m => rfl⟩
  intro reads cfg req decisionId today e h
  unfold calculate_reward at h
  have main : ∀ e0 : EngineError, decideMain reads cfg req decisionId today = .error e0 →
      wrapError e0 = e → (∃ m, e = .valueError m) ∧ routerStatus e = 400 := by
    intro e0 h0 hw
    obtain ⟨m, hm⟩ := decideMain_error_valueError h0
    subst hm
    subst hw
    exact ⟨⟨_, rfl⟩, rfl⟩
  cases hv : readIdem reads.idem with
  | none =>
    simp only [hv] at h
    cases hm : decideMain reads cfg req decisionId today with
    | ok x =>
      rw [hm] at h
      exact Except.noConfusion h
    | error e0 =>
      rw [hm] at h
      exact main e0 hm (Except.error.inj h)
  | some v =>
    simp only [hv] at h
    by_cases ht : v.truthy
    · rw [if_pos ht] at h
      cases v with
      | vResp r => simp [_get_cached_response] at h
      | vInt n =>
        simp only [_get_cached_response] at h
        have he := Except.error.inj h
        rw [← he]
        exact ⟨⟨_, rfl⟩, rfl⟩
      | vFloat q =>
        simp only [_get_cached_response] at h
        have he := Except.error.inj h
        rw [← he]
        exact ⟨⟨_, rfl⟩, rfl⟩
      | vStr s =>
        simp only [_get_cached_response] at h
        have he := Except.error.inj h
        rw [← he]
        exact ⟨⟨_, rfl⟩, rfl⟩
    · rw [if_neg ht] at h
      cases hm : decideMain reads cfg req decisionId today with
      | ok x =>
        rw [hm] at h
        exact Except.noConfusion h
      | error e0 =>
        rw [hm] at h
        exact main e0 hm (Except.error.inj h)

/-- C7 witness for the amended theorem, at the concrete malformed
configuration: the raised error is a `ValueError` with router status 400. -/
theorem claim_C7_witness :
    (∃ m, EngineError.valueError
      "Invalid input or configuration: Missing required config key: xp_per_rupee" =
        .valueError m) ∧
    routerStatus (.valueError
      "Invalid input or configuration: Missing required config key: xp_per_rupee") = 400 :=
  claim_C7_amended.1 readsAbsent cfgMissing reqT1 "id1" "d" _ rfl

/-- C1: for every valid request that is not short-circuited by an existing
idempotency record, reward selection follows the fixed priority order of
`reward_engine.py:189-207`: (a) cap usage ≥ the daily cap limit of the persona ⇒
points (XP) at the computed experience-points value, reason "cap exceeded";
(b) else prefer-bonus flag set and persona POWER ⇒ bonus credit (GOLD) at
the configured flat value; (c) else prefer-points flag set ⇒ points at the
experience-points value; (d) else cashback-style credit of value
`min(max(0, cap-limit − cap-usage), experience-points-value)`. -/
theorem claim_C1_priority_order (reads : ReadResults) (cfg : Config)
    (req : RewardRequest) (decisionId today : String) (r : RewardResponse)
    (ws : List CacheWrite) (vals : CfgVals)
    (hmiss : idemAbsent reads.idem)
    (h : calculate_reward reads cfg req decisionId today = .ok (r, ws))
    (hvals : getCfgVals cfg (promote (readPersona reads.persona)
      (readTxnCount reads.txnCount + 1)) = .ok vals) :
    (vals.daily_limit ≤ readCac reads.cac →
      r.reward_type = .XP ∧
      r.reward_value =
        computeXp req.amount vals.xp_per_rupee vals.multiplier vals.max_xp ∧
      r.reason_codes = [.DAILY_CAC_EXCEEDED]) ∧
    (¬ vals.daily_limit ≤ readCac reads.cac →
      vals.prefer_gold = true →
      promote (readPersona reads.persona) (readTxnCount reads.txnCount + 1) =
        .POWER →
      r.reward_type = .GOLD ∧ r.reward_value = pyInt vals.gold_reward_value ∧
      r.reason_codes = [.GOLD_GRANTED]) ∧
    (¬ vals.daily_limit ≤ readCac reads.cac →
      ¬ (vals.prefer_gold = true ∧
        promote (readPersona reads.persona) (readTxnCount reads.txnCount + 1) =
          .POWER) →
      vals.prefer_xp = true →
      r.reward_type = .XP ∧
      r.reward_value =
        computeXp req.amount vals.xp_per_rupee vals.multiplier vals.max_xp ∧
      r.reason_codes = [.XP_APPLIED]) ∧
    (¬ vals.daily_limit ≤ readCac reads.cac →
      ¬ (vals.prefer_gold = true ∧
        promote (readPersona reads.persona) (readTxnCount reads.txnCount + 1) =
          .POWER) →
      vals.prefer_xp = false →
      r.reward_type = .CHECKOUT ∧
      r.reward_value = min (max 0 (vals.daily_limit - readCac reads.cac))
        (computeXp req.amount vals.xp_per_rupee vals.multiplier vals.max_xp) ∧
      r.reason_codes = [.CASHBACK_GRANTED]) := by
  obtain ⟨vals2, rt, rv, reason, hg, hb, hr, -⟩ :=
    decideMain_ok_shape (calculate_reward_fresh_ok hmiss h)
  have hv := Except.ok.inj (hg.symm.trans hvals)
  subst hv
  subst hr
  refine ⟨?_, ?_, ?_, ?_⟩
  · intro hcap
    have ht := rewardBranch_cap hcap hb
    simp only [Prod.mk.injEq] at ht
    obtain ⟨h1, h2, h3⟩ := ht
    exact ⟨h1, h2, by rw [h3]⟩
  · intro hcap hflag hpow
    obtain ⟨-, ht⟩ := rewardBranch_gold hcap hflag hpow hb
    simp only [Prod.mk.injEq] at ht
    obtain ⟨h1, h2, h3⟩ := ht
    exact ⟨h1, h2, by rw [h3]⟩
  · intro hcap hng hflag
    have ht := rewardBranch_xp hcap hng hflag hb
    simp only [Prod.mk.injEq] at ht
    obtain ⟨h1, h2, h3⟩ := ht
    exact ⟨h1, h2, by rw [h3]⟩
  · intro hcap hng hflag
    have ht := rewardBranch_cashback hcap hng hflag hb
    simp only [Prod.mk.injEq] at ht
    obtain ⟨h1, h2, h3⟩ := ht
    exact ⟨h1, h2, by rw [h3]⟩

/-- C1 witness, at the §8 scenario (amount 100, NEW ×1.5, cap 200, usage 0,
both flags effectively off for a NEW persona): branch (d) fires, giving a
cashback-style credit at the cap-headroom/points minimum. -/
theorem claim_C1_witness :
    respStd.reward_type = .CHECKOUT ∧
    respStd.reward_value = min (max 0 (valsStd.daily_limit - readCac readsAbsent.cac))
      (computeXp reqT1.amount valsStd.xp_per_rupee valsStd.multiplier valsStd.max_xp) ∧
    respStd.reason_codes = [.CASHBACK_GRANTED] :=
  (claim_C1_priority_order readsAbsent cfgStd reqT1 "id1" "d" respStd wsStd
    valsStd trivial eval_std eval_valsStd).2.2.2 (by decide) (by decide) rfl

/-- C5: for every valid request (positive amount) and validated
configuration, the experience-points value is
`floor(amount × points-per-unit × persona-multiplier)` clamped to
`[0, max-points-per-transaction]` (both clamp phrasings coincide), and the
fresh Decision Record satisfies `0 ≤ xp`, `(xp : ℚ) ≤ max-points`, and
`0 ≤ reward_value`. -/
theorem claim_C5_xp_bounds (reads : ReadResults) (cfg : Config)
    (req : RewardRequest) (decisionId today : String) (r : RewardResponse)
    (ws : List CacheWrite) (vals : CfgVals)
    (hmiss : idemAbsent reads.idem)
    (h : calculate_reward reads cfg req decisionId today = .ok (r, ws))
    (hvals : getCfgVals cfg (promote (readPersona reads.persona)
      (readTxnCount reads.txnCount + 1)) = .ok vals)
    (hamount : 0 < req.amount) :
    r.xp = max 0 (min ⌊req.amount * vals.xp_per_rupee * vals.multiplier⌋
      ⌊vals.max_xp⌋) ∧
    r.xp = min (max 0 ⌊req.amount * vals.xp_per_rupee * vals.multiplier⌋)
      ⌊vals.max_xp⌋ ∧
    0 ≤ r.xp ∧ (r.xp : ℚ) ≤ vals.max_xp ∧ 0 ≤ r.reward_value := by
  obtain ⟨hppu, hmult, hmx, hdl⟩ := getCfgVals_ok_nonneg hvals
  obtain ⟨vals2, rt, rv, reason, hg, hb, hr, -⟩ :=
    decideMain_ok_shape (calculate_reward_fresh_ok hmiss h)
  have hv := Except.ok.inj (hvals.symm.trans hg)
  subst hv
  subst hr
  have hprod : (0 : ℚ) ≤ req.amount * vals.xp_per_rupee * vals.multiplier :=
    mul_nonneg (mul_nonneg hamount.le hppu) hmult
  have hxp_eq : computeXp req.amount vals.xp_per_rupee vals.multiplier vals.max_xp =
      max 0 (min ⌊req.amount * vals.xp_per_rupee * vals.multiplier⌋ ⌊vals.max_xp⌋) := by
    unfold computeXp
    rw [pyInt_eq_floor hprod, pyInt_eq_floor hmx]
  have hfl : (0 : Int) ≤ ⌊vals.max_xp⌋ := Int.floor_nonneg.mpr hmx
  have hcomm : max 0 (min ⌊req.amount * vals.xp_per_rupee * vals.multiplier⌋
      ⌊vals.max_xp⌋) =
      min (max 0 ⌊req.amount * vals.xp_per_rupee * vals.multiplier⌋) ⌊vals.max_xp⌋ := by
    rw [max_min_distrib_left, max_eq_right hfl]
  have hle : computeXp req.amount vals.xp_per_rupee vals.multiplier vals.max_xp ≤
      ⌊vals.max_xp⌋ := by
    rw [hxp_eq.trans hcomm]
    exact min_le_right _ _
  refine ⟨hxp_eq, hxp_eq.trans hcomm, computeXp_nonneg _ _ _ _, ?_, ?_⟩
  · exact le_trans (Int.cast_le.mpr hle) (Int.floor_le _)
  · exact rewardBranch_ok_nonneg (computeXp_nonneg _ _ _ _) hb

/-- C5 witness at the §8 scenario: xp = 150 = clamp(floor(100·1·1.5)),
within `[0, 500]`, and the reward value is non-negative. -/
theorem claim_C5_witness :
    respStd.xp = max 0 (min ⌊reqT1.amount * valsStd.xp_per_rupee * valsStd.multiplier⌋
      ⌊valsStd.max_xp⌋) ∧
    respStd.xp = min (max 0 ⌊reqT1.amount * valsStd.xp_per_rupee * valsStd.multiplier⌋)
      ⌊valsStd.max_xp⌋ ∧
    0 ≤ respStd.xp ∧ (respStd.xp : ℚ) ≤ valsStd.max_xp ∧ 0 ≤ respStd.reward_value :=
  claim_C5_xp_bounds readsAbsent cfgStd reqT1 "id1" "d" respStd wsStd valsStd
    trivial eval_std eval_valsStd (by norm_num [reqT1])

theorem calculate_reward_hit {s : Store} {cfg : Config} {req : RewardRequest}
    {decisionId today : String} {r0 : RewardResponse}
    (hidem : s (idemKey req) = some (.vResp r0)) :
    calculate_reward (readsOf s req today) cfg req decisionId today =
      .ok (r0, []) := by
  simp [calculate_reward, readsOf, readIdem, hidem, CacheValue.truthy,
    _get_cached_response]

theorem decideStep_fresh {s : Store} {cfg : Config} {req : RewardRequest}
    {decisionId today : String} {r : RewardResponse} {s' : Store}
    (hmiss : idemAbsent (.ok (s (idemKey req))))
    (h : decideStep s cfg req decisionId today = .ok (r, s')) :
    ∃ vals rt rv reason,
      getCfgVals cfg r.meta_persona = .ok vals ∧
      rewardBranch vals r.meta_daily_cac_used r.meta_persona r.xp =
        .ok (rt, rv, reason) ∧
      r.reward_type = rt ∧ r.reward_value = rv ∧ r.reason_codes = [reason] ∧
      r.meta_daily_cac_used = readCac (.ok (s (cacKey req today))) ∧
      r.meta_daily_cac_limit = vals.daily_limit ∧
      0 ≤ r.xp ∧ 0 ≤ r.meta_daily_cac_used ∧
      s' (cacKey req today) =
        some (.vInt (r.meta_daily_cac_used + r.reward_value)) ∧
      s' (idemKey req) = some (.vResp r) := by
  unfold decideStep at h
  cases hc : calculate_reward (readsOf s req today) cfg req decisionId today with
  | error e =>
    rw [hc] at h
    exact Except.noConfusion h
  | ok x =>
    obtain ⟨r0, ws⟩ := x
    rw [hc] at h
    simp only [Except.ok.injEq, Prod.mk.injEq] at h
    obtain ⟨h01, h02⟩ := h
    subst h01
    subst h02
    have hm := calculate_reward_fresh_ok
      (show idemAbsent (readsOf s req today).idem from hmiss) hc
    obtain ⟨vals, rt, rv, reason, hg, hb, hr, hws⟩ := decideMain_ok_shape hm
    subst hws
    subst hr
    refine ⟨vals, rt, rv, reason, hg, hb, rfl, rfl, rfl, rfl, rfl,
      computeXp_nonneg _ _ _ _, readCac_nonneg _, ?_, ?_⟩
    · rw [applyWrites_four]
      rw [if_neg (cacKey_ne_idemKey req req today), if_pos rfl]
    · rw [applyWrites_four]
      rw [if_pos rfl]

/-- C2: if a Decision Record already exists at the idempotency key, `decide`
decodes and returns it unchanged with no further cache writes (a truthy
cached value of any other shape raises an internal `ValueError`); hence two
sequential `decide` calls with identical (transaction id, user id, merchant
id), with no concurrent interleaving, return the identical Decision Record —
same decision identifier — and the second call schedules no writes. -/
theorem claim_C2_idempotent_replay (s : Store) (cfg : Config)
    (req : RewardRequest) (today id1 id2 : String) :
    (∀ (r : RewardResponse) (s1 : Store),
      decideStep s cfg req id1 today = .ok (r, s1) →
      calculate_reward (readsOf s1 req today) cfg req id2 today = .ok (r, [])) ∧
    (∀ r0 : RewardResponse, s (idemKey req) = some (.vResp r0) →
      calculate_reward (readsOf s req today) cfg req id1 today = .ok (r0, [])) ∧
    (∀ v : CacheValue, s (idemKey req) = some v → v.truthy = true →
      (∀ r0, v ≠ .vResp r0) →
      ∃ m, calculate_reward (readsOf s req today) cfg req id1 today =
        .error (.valueError m)) := by
  refine ⟨?_, ?_, ?_⟩
  · intro r s1 hstep
    unfold decideStep at hstep
    cases hc : calculate_reward (readsOf s req today) cfg req id1 today with
    | error e =>
      rw [hc] at hstep
      exact Except.noConfusion hstep
    | ok x =>
      obtain ⟨r0, ws⟩ := x
      rw [hc] at hstep
      simp only [Except.ok.injEq, Prod.mk.injEq] at hstep
      obtain ⟨h01, h02⟩ := hstep
      subst h01
      subst h02
      rcases calculate_reward_ok_cases hc with ⟨hi, hws⟩ | hm
      · subst hws
        have hidem : s (idemKey req) = some (.vResp r0) := by
          simpa [readsOf, readIdem] using hi
        exact calculate_reward_hit hidem
      · obtain ⟨vals, rt, rv, reason, -, -, -, hws⟩ := decideMain_ok_shape hm
        subst hws
        apply calculate_reward_hit
        rw [applyWrites_four]
        rw [if_pos rfl]
  · intro r0 hidem
    exact calculate_reward_hit hidem
  · intro v hidem ht hnr
    cases v with
    | vResp r0 => exact absurd rfl (hnr r0)
    | vInt n =>
      exact ⟨"Invalid input or configuration: Unexpected cached data type",
        by simp [calculate_reward, readsOf, readIdem, hidem, ht,
          _get_cached_response, wrapError]⟩
    | vFloat q =>
      exact ⟨"Invalid input or configuration: Unexpected cached data type",
        by simp [calculate_reward, readsOf, readIdem, hidem, ht,
          _get_cached_response, wrapError]⟩
    | vStr str =>
      exact ⟨"Invalid input or configuration: Unexpected cached data type",
        by simp [calculate_reward, readsOf, readIdem, hidem, ht,
          _get_cached_response, wrapError]⟩

/-- C2 witness: after the concrete first decision for `reqT1` lands, a
second sequential call with the same identifiers replays the identical
Decision Record (same decision identifier "id1") and schedules no writes. -/
theorem claim_C2_witness :
    calculate_reward (readsOf s1Std reqT1 "d") cfgStd reqT1 "id2" "d" =
      .ok (respStd, []) :=
  (claim_C2_idempotent_replay emptyStore cfgStd reqT1 "d" "id1" "id2").1
    respStd s1Std eval_step1

theorem eval_step2 :
    decideStep s1Std cfgStd reqT2 "id2" "d" =
      .ok (resp2Std, applyWrites s1Std ws2Std) := by
  unfold decideStep
  rw [eval_step2calc]

/-- C3 amended: the new cap usage written back equals the previous cap usage
plus the reward value of this decision, regardless of reward kind; reward values
are non-negative, so for a fixed user and day under sequential fresh
decisions the cap usage reported in metadata is non-decreasing; and once
usage ≥ the daily cap limit of the persona, the next same-day decision takes the
points-reward / "cap exceeded" branch provided the cap limit of its persona is
not larger than the current one (a persona promotion may raise the limit and
re-open headroom, see the counterexample). -/
theorem claim_C3_cap_accumulation (s : Store) (cfg : Config)
    (req1 req2 : RewardRequest) (today id1 id2 : String)
    (r1 r2 : RewardResponse) (s1 s2 : Store)
    (h1 : decideStep s cfg req1 id1 today = .ok (r1, s1))
    (h2 : decideStep s1 cfg req2 id2 today = .ok (r2, s2))
    (hm1 : idemAbsent (.ok (s (idemKey req1))))
    (hm2 : idemAbsent (.ok (s1 (idemKey req2))))
    (huser : req2.user_id = req1.user_id) :
    s1 (cacKey req1 today) =
      some (.vInt (r1.meta_daily_cac_used + r1.reward_value)) ∧
    0 ≤ r1.reward_value ∧
    r1.meta_daily_cac_used ≤ r2.meta_daily_cac_used ∧
    (r1.meta_daily_cac_limit ≤ r1.meta_daily_cac_used →
     r2.meta_daily_cac_limit ≤ r1.meta_daily_cac_limit →
     r2.reward_type = .XP ∧ r2.reason_codes = [.DAILY_CAC_EXCEEDED]) := by
  obtain ⟨vals1, rt1, rv1, reason1, hg1, hb1, hrt1, hrv1, hrc1, hused1, hlim1,
    hxp1, hcu1, hcac1, hidem1⟩ := decideStep_fresh hm1 h1
  obtain ⟨vals2, rt2, rv2, reason2, hg2, hb2, hrt2, hrv2, hrc2, hused2, hlim2,
    hxp2, hcu2, hcac2, hidem2⟩ := decideStep_fresh hm2 h2
  have hkey : cacKey req2 today = cacKey req1 today := by
    unfold cacKey
    rw [huser]
  have hrv1n : 0 ≤ r1.reward_value := by
    rw [hrv1]
    exact rewardBranch_ok_nonneg hxp1 hb1
  have h2used : r2.meta_daily_cac_used =
      max 0 (r1.meta_daily_cac_used + r1.reward_value) := by
    rw [hused2, hkey, hcac1]
    rfl
  refine ⟨hcac1, hrv1n, by omega, ?_⟩
  intro hcap hle
  have hcap2 : vals2.daily_limit ≤ r2.meta_daily_cac_used := by omega
  have ht := rewardBranch_cap hcap2 hb2
  simp only [Prod.mk.injEq] at ht
  obtain ⟨h1', h2', h3'⟩ := ht
  exact ⟨hrt2.trans h1', by rw [hrc2, h3']⟩

/-- C3 counterexample: under a validated configuration whose RETURNING cap
limit (1000) exceeds its NEW limit (10), a decision at usage 10 ≥ limit 10
takes the cap-exceeded branch, yet the very next same-day sequential
decision for the same user promotes the persona to RETURNING and takes the
cashback branch — falsifying "once usage ≥ limit, every subsequent same-day
decision takes the cap-exceeded branch". -/
theorem claim_C3_counterexample :
    decideStep c3Store cfgPromo reqT1 "id1" "d" = .ok (c3r1, c3s1) ∧
    c3r1.meta_daily_cac_limit ≤ c3r1.meta_daily_cac_used ∧
    c3r1.reason_codes = [.DAILY_CAC_EXCEEDED] ∧
    reqT2.user_id = reqT1.user_id ∧
    calculate_reward (readsOf c3s1 reqT2 "d") cfgPromo reqT2 "id2" "d" =
      .ok (c3r2, c3ws2) ∧
    c3r2.reason_codes = [.CASHBACK_GRANTED] ∧
    c3r2.reward_type ≠ .XP ∧
    c3r2.reason_codes ≠ [.DAILY_CAC_EXCEEDED] :=
  ⟨eval_c3step1, by decide, by decide, rfl, eval_c3step2calc, rfl,
   by decide, by decide⟩

/-- C3 witness for the amended theorem, on the two concrete sequential
decisions under `cfgStd`: the CAC write-back equation, non-negative reward,
non-decreasing metadata usage, and the guarded cap-exceeded persistence. -/
theorem claim_C3_witness :
    s1Std (cacKey reqT1 "d") =
      some (.vInt (respStd.meta_daily_cac_used + respStd.reward_value)) ∧
    0 ≤ respStd.reward_value ∧
    respStd.meta_daily_cac_used ≤ resp2Std.meta_daily_cac_used ∧
    (respStd.meta_daily_cac_limit ≤ respStd.meta_daily_cac_used →
     resp2Std.meta_daily_cac_limit ≤ respStd.meta_daily_cac_limit →
     resp2Std.reward_type = .XP ∧ resp2Std.reason_codes = [.DAILY_CAC_EXCEEDED]) :=
  claim_C3_cap_accumulation emptyStore cfgStd reqT1 reqT2 "d" "id1" "id2"
    respStd resp2Std s1Std (applyWrites s1Std ws2Std) eval_step1 eval_step2
    trivial trivial rfl

end RewardService
